import Mathlib

/-!
Verification of the turtlecoin-api-proxy gateway (src/index.js) against its
natural-language specification.  Numeric samples (block heights, difficulties)
are modelled as `Int`, JavaScript fractional results as `Rat`, JavaScript
`undefined`/missing values as `Option`, and a promise that can reject as
`Except`.  A thrown-and-caught exception that the source converts into an
`{error}` resolution is modelled as the `Except.error` branch of the
corresponding reduction function.
-/

namespace TurtleProxy

/-! ## Aggregation statistics helpers (src/index.js lines 1412-1453) -/

/-- Result of `voteValue`: the winning value and its confidence ratio. -/
structure VoteOutcome where
  value : Int
  confidence : Rat
deriving DecidableEq

/-- One entry of the `tallies` object of `voteValue`: a distinct sample value
and the number of times it occurred. -/
def tallyInsert (ts : List (Int × Nat)) (v : Int) : List (Int × Nat) :=
  match ts with
  | [] => [(v, 1)]
  | (w, t) :: rest => if w = v then (w, t + 1) :: rest else (w, t) :: tallyInsert rest v

/-- The `tallies` accumulation loop of `voteValue`: one `(value, tally)` pair
per distinct value, in first-occurrence order. -/
def buildTallies (arr : List Int) : List (Int × Nat) :=
  arr.foldl tallyInsert []

/-- `voteValue(arr)` (lines 1437-1453).  Empty input returns
`{value: 0, confidence: 1}`.  Otherwise the tally entries are sorted with the
comparator `(a, b) => b.value - a.value`, i.e. descending by value (the tally
plays no role in the comparator), the first element is the winner, and its
confidence is its tally divided by the sample count. -/
def voteValue (arr : List Int) : VoteOutcome :=
  match arr with
  | [] => ⟨0, 1⟩
  | _ :: _ =>
    let votes := List.insertionSort (fun a b : Int × Nat => b.1 ≤ a.1) (buildTallies arr)
    let winner := votes.headD (0, 0)
    ⟨winner.1, (winner.2 : Rat) / (arr.length : Rat)⟩

/-- `maxValue(arr)` (lines 1412-1416): `arr.reduce((a, b) => Math.max(a, b))`.
`reduce` with no initial value throws a `TypeError` on an empty array, which is
modelled by `none`. -/
def maxValue : List Int → Option Int
  | [] => none
  | x :: xs => some (xs.foldl max x)

/-- `minValue(arr)` (lines 1418-1422): `arr.reduce((a, b) => Math.min(a, b))`;
`none` models the `TypeError` thrown on an empty array. -/
def minValue : List Int → Option Int
  | [] => none
  | x :: xs => some (xs.foldl min x)

/-- `Math.round(x)`: round half toward positive infinity. -/
def jsRound (x : Rat) : Int :=
  ⌊x + 1 / 2⌋

/-- `avgValue(arr)` (lines 1424-1430): sum the entries and apply
`Math.round(sum / arr.length)`.  On an empty array the division is `0 / 0`,
i.e. `NaN`, modelled by `none`. -/
def avgValue (arr : List Int) : Option Int :=
  match arr with
  | [] => none
  | _ :: _ => some (jsRound ((arr.sum : Rat) / (arr.length : Rat)))

/-- `medValue(arr)` (lines 1432-1435): sort numerically ascending and return
`(arr[(arr.length - 1) >> 1] + arr[arr.length >> 1]) / 2`.  On an empty array
both indices are out of range and the result is `NaN`, modelled by `none`. -/
def medValue (arr : List Int) : Option Rat :=
  match arr with
  | [] => none
  | x :: xs =>
    let s := List.insertionSort (fun a b : Int => a ≤ b) (x :: xs)
    some ((((s.getD (((x :: xs).length - 1) / 2) 0 : Int) : Rat)
        + ((s.getD ((x :: xs).length / 2) 0 : Int) : Rat)) / 2)

example : voteValue [5, 5, 7] = ⟨7, (1 : Rat) / 3⟩ := rfl
example : voteValue [5, 5, 7, 7] = ⟨7, (1 : Rat) / 2⟩ := by
  norm_num [voteValue, buildTallies, tallyInsert, List.insertionSort, List.orderedInsert]
example : voteValue [] = ⟨0, 1⟩ := rfl
example : medValue [5, 5, 7] = some 5 := by
  norm_num [medValue, List.insertionSort, List.orderedInsert]
example : medValue [5, 7] = some 6 := by
  norm_num [medValue, List.insertionSort, List.orderedInsert]
example : avgValue [5, 5, 7] = some 6 := by
  norm_num [avgValue, jsRound]

/-- C1: at the spec's own test vector `[5,5,7]` the code returns winner `7`
with confidence `1/3`, not the highest-tally value `5` with confidence `2/3`:
`voteValue` sorts its tally entries by value alone, so the tallies never
influence which value wins.  The tie vector `[5,5,7,7]` happens to agree with
the spec (`7`, `0.5`) because all tallies are equal there. -/
theorem voteValue_sorts_by_value_not_tally :
    voteValue [5, 5, 7] = ⟨7, (1 : Rat) / 3⟩ ∧
    (voteValue [5, 5, 7]).value ≠ 5 ∧
    (voteValue [5, 5, 7]).confidence ≠ (2 : Rat) / 3 ∧
    voteValue [5, 5, 7, 7] = ⟨7, (1 : Rat) / 2⟩ := by
  refine ⟨rfl, by decide, ?_, ?_⟩
  · show (1 : Rat) / 3 ≠ 2 / 3
    norm_num
  · norm_num [voteValue, buildTallies, tallyInsert, List.insertionSort, List.orderedInsert]

/-! ## Claim C9: bounds on the computed statistics -/

theorem le_foldl_max : ∀ (xs : List Int) (x : Int), ∀ a ∈ x :: xs, a ≤ xs.foldl max x := by
  intro xs
  induction xs with
  | nil =>
    intro x a ha
    simp only [List.mem_singleton] at ha
    simp [ha]
  | cons y ys ih =>
    intro x a ha
    simp only [List.foldl_cons]
    have hbase : max x y ≤ ys.foldl max (max x y) :=
      ih (max x y) (max x y) (List.mem_cons_self _ _)
    rcases List.mem_cons.mp ha with h1 | h2
    · subst h1
      exact le_trans (le_max_left a y) hbase
    · rcases List.mem_cons.mp h2 with h3 | h4
      · subst h3
        exact le_trans (le_max_right x a) hbase
      · exact ih (max x y) a (List.mem_cons_of_mem _ h4)

theorem foldl_min_le : ∀ (xs : List Int) (x : Int), ∀ a ∈ x :: xs, xs.foldl min x ≤ a := by
  intro xs
  induction xs with
  | nil =>
    intro x a ha
    simp only [List.mem_singleton] at ha
    simp [ha]
  | cons y ys ih =>
    intro x a ha
    simp only [List.foldl_cons]
    have hbase : ys.foldl min (min x y) ≤ min x y :=
      ih (min x y) (min x y) (List.mem_cons_self _ _)
    rcases List.mem_cons.mp ha with h1 | h2
    · subst h1
      exact le_trans hbase (min_le_left a y)
    · rcases List.mem_cons.mp h2 with h3 | h4
      · subst h3
        exact le_trans hbase (min_le_right x a)
      · exact ih (min x y) a (List.mem_cons_of_mem _ h4)

theorem getD_mem {α : Type} : ∀ (l : List α) (i : Nat) (d : α), i < l.length → l.getD i d ∈ l := by
  intro l
  induction l with
  | nil => intro i d h; simp at h
  | cons x xs ih =>
    intro i d h
    cases i with
    | zero => simp [List.getD_cons_zero]
    | succ n =>
      rw [List.getD_cons_succ]
      exact List.mem_cons_of_mem _ (ih n d (by simpa using Nat.lt_of_succ_lt_succ (by simpa using h)))

theorem sum_le_length_mul : ∀ (l : List Int) (M : Int), (∀ a ∈ l, a ≤ M) →
    l.sum ≤ (l.length : Int) * M := by
  intro l
  induction l with
  | nil => intro M _; simp
  | cons x xs ih =>
    intro M hM
    have h1 : x ≤ M := hM x (List.mem_cons_self _ _)
    have h2 : xs.sum ≤ (xs.length : Int) * M := ih M (fun a ha => hM a (List.mem_cons_of_mem _ ha))
    simp only [List.sum_cons, List.length_cons]
    push_cast
    nlinarith [h1, h2]

theorem length_mul_le_sum : ∀ (l : List Int) (m : Int), (∀ a ∈ l, m ≤ a) →
    (l.length : Int) * m ≤ l.sum := by
  intro l
  induction l with
  | nil => intro m _; simp
  | cons x xs ih =>
    intro m hm
    have h1 : m ≤ x := hm x (List.mem_cons_self _ _)
    have h2 : (xs.length : Int) * m ≤ xs.sum := ih m (fun a ha => hm a (List.mem_cons_of_mem _ ha))
    simp only [List.sum_cons, List.length_cons]
    push_cast
    nlinarith [h1, h2]

theorem jsRound_mono {x y : Rat} (h : x ≤ y) : jsRound x ≤ jsRound y :=
  Int.floor_le_floor (by linarith)

theorem jsRound_intCast (z : Int) : jsRound ((z : Int) : Rat) = z := by
  unfold jsRound
  rw [add_comm, Int.floor_add_int]
  norm_num

/-- C9: for every non-empty sample list, all four statistics are defined and
`min ≤ med ≤ max` and `min ≤ avg ≤ max`, where `avg` is the rounded arithmetic
mean and `med` the standard median of the sorted list, as computed by
`avgValue` and `medValue`. -/
theorem statistics_bounds (l : List Int) (h : l ≠ []) :
    ∃ mx mn av md, maxValue l = some mx ∧ minValue l = some mn ∧
      avgValue l = some av ∧ medValue l = some md ∧
      (mn : Rat) ≤ md ∧ md ≤ (mx : Rat) ∧ mn ≤ av ∧ av ≤ mx := by
  cases l with
  | nil => exact absurd rfl h
  | cons x xs =>
    set mx := xs.foldl max x with hmx
    set mn := xs.foldl min x with hmn
    have hmem_le : ∀ a ∈ x :: xs, a ≤ mx := le_foldl_max xs x
    have hle_mem : ∀ a ∈ x :: xs, mn ≤ a := foldl_min_le xs x
    have hlen : (0 : Rat) < ((x :: xs).length : Rat) := by
      simp only [List.length_cons]
      push_cast
      positivity
    -- average bounds
    have hsum_hi : ((x :: xs).sum : Rat) ≤ ((x :: xs).length : Rat) * (mx : Rat) := by
      have := sum_le_length_mul (x :: xs) mx hmem_le
      exact_mod_cast this
    have hsum_lo : ((x :: xs).length : Rat) * (mn : Rat) ≤ ((x :: xs).sum : Rat) := by
      have := length_mul_le_sum (x :: xs) mn hle_mem
      exact_mod_cast this
    have hmean_hi : ((x :: xs).sum : Rat) / ((x :: xs).length : Rat) ≤ (mx : Rat) := by
      rw [div_le_iff₀ hlen]
      linarith
    have hmean_lo : (mn : Rat) ≤ ((x :: xs).sum : Rat) / ((x :: xs).length : Rat) := by
      rw [le_div_iff₀ hlen]
      linarith
    have hav_hi : jsRound (((x :: xs).sum : Rat) / ((x :: xs).length : Rat)) ≤ mx := by
      have := jsRound_mono hmean_hi
      rwa [jsRound_intCast] at this
    have hav_lo : mn ≤ jsRound (((x :: xs).sum : Rat) / ((x :: xs).length : Rat)) := by
      have := jsRound_mono hmean_lo
      rwa [jsRound_intCast] at this
    -- median bounds
    set s := List.insertionSort (fun a b : Int => a ≤ b) (x :: xs) with hs
    have hslen : s.length = (x :: xs).length := List.length_insertionSort _ _
    have hi1 : ((x :: xs).length - 1) / 2 < s.length := by
      rw [hslen]
      simp only [List.length_cons]
      omega
    have hi2 : (x :: xs).length / 2 < s.length := by
      rw [hslen]
      simp only [List.length_cons]
      omega
    have ha : s.getD (((x :: xs).length - 1) / 2) 0 ∈ x :: xs :=
      (List.mem_insertionSort _).mp (getD_mem s _ 0 hi1)
    have hb : s.getD ((x :: xs).length / 2) 0 ∈ x :: xs :=
      (List.mem_insertionSort _).mp (getD_mem s _ 0 hi2)
    set a := s.getD (((x :: xs).length - 1) / 2) 0 with hadef
    set b := s.getD ((x :: xs).length / 2) 0 with hbdef
    have ha1 : mn ≤ a := hle_mem a ha
    have ha2 : a ≤ mx := hmem_le a ha
    have hb1 : mn ≤ b := hle_mem b hb
    have hb2 : b ≤ mx := hmem_le b hb
    have hmed_lo : (mn : Rat) ≤ ((a : Rat) + (b : Rat)) / 2 := by
      rw [le_div_iff₀ (by norm_num : (0 : Rat) < 2)]
      have c1 : (mn : Rat) ≤ (a : Rat) := by exact_mod_cast ha1
      have c2 : (mn : Rat) ≤ (b : Rat) := by exact_mod_cast hb1
      linarith
    have hmed_hi : ((a : Rat) + (b : Rat)) / 2 ≤ (mx : Rat) := by
      rw [div_le_iff₀ (by norm_num : (0 : Rat) < 2)]
      have c1 : (a : Rat) ≤ (mx : Rat) := by exact_mod_cast ha2
      have c2 : (b : Rat) ≤ (mx : Rat) := by exact_mod_cast hb2
      linarith
    exact ⟨mx, mn, jsRound (((x :: xs).sum : Rat) / ((x :: xs).length : Rat)),
      ((a : Rat) + (b : Rat)) / 2, rfl, rfl, rfl, rfl, hmed_lo, hmed_hi, hav_lo, hav_hi⟩

/-- Witness for C9 at the concrete sample list `[5, 5, 7]`. -/
theorem statistics_bounds_witness :
    ([5, 5, 7] : List Int) ≠ [] ∧
    (∃ mx mn av md, maxValue [5, 5, 7] = some mx ∧ minValue [5, 5, 7] = some mn ∧
      avgValue [5, 5, 7] = some av ∧ medValue [5, 5, 7] = some md ∧
      (mn : Rat) ≤ md ∧ md ≤ (mx : Rat) ∧ mn ≤ av ∧ av ≤ mx) :=
  ⟨by decide, statistics_bounds [5, 5, 7] (by decide)⟩

/-! ## Claim C3: parseInteger (lines 1406-1410) and the hash-vs-height
dispatch of the block / block-header lookup routes (lines 481-547) -/

/-- Result of the JavaScript builtin `parseInt`: `NaN` or an integer. -/
inductive JsNum where
  | nan
  | num (v : Int)
deriving DecidableEq

/-- Whitespace skipped by `parseInt` before parsing. -/
def isJsSpace (c : Char) : Bool :=
  c = ' ' || c = '\t' || c = '\n' || c = '\r'

def isHexDigitChar (c : Char) : Bool :=
  c.isDigit || ('a' ≤ c && c ≤ 'f') || ('A' ≤ c && c ≤ 'F')

def decValue (ds : List Char) : Nat :=
  ds.foldl (fun acc c => 10 * acc + (c.toNat - Char.toNat '0')) 0

def hexDigitValue (c : Char) : Nat :=
  if c.isDigit then c.toNat - Char.toNat '0'
  else if 'a' ≤ c && c ≤ 'f' then c.toNat - Char.toNat 'a' + 10
  else c.toNat - Char.toNat 'A' + 10

def hexValue (ds : List Char) : Nat :=
  ds.foldl (fun acc c => 16 * acc + hexDigitValue c) 0

/-- `parseInt` after a `0x`/`0X` prefix: longest hex-digit run, `NaN` if empty. -/
def jsParseIntHex (rest : List Char) (sign : Int) : JsNum :=
  let ds := rest.takeWhile isHexDigitChar
  if ds.isEmpty then .nan else .num (sign * (hexValue ds : Int))

/-- `parseInt` without a hex prefix: longest decimal-digit run, `NaN` if empty. -/
def jsParseIntDec (cs : List Char) (sign : Int) : JsNum :=
  let ds := cs.takeWhile Char.isDigit
  if ds.isEmpty then .nan else .num (sign * (decValue ds : Int))

def jsParseIntBody (cs : List Char) (sign : Int) : JsNum :=
  match cs with
  | '0' :: 'x' :: rest => jsParseIntHex rest sign
  | '0' :: 'X' :: rest => jsParseIntHex rest sign
  | _ => jsParseIntDec cs sign

/-- The JavaScript builtin `parseInt(str)` (radix auto-detection): skip leading
whitespace, an optional sign, an optional `0x`/`0X` hex prefix, then the longest
digit run; `NaN` when no digit is consumed. -/
def jsParseInt (s : String) : JsNum :=
  match s.data.dropWhile isJsSpace with
  | '-' :: rest => jsParseIntBody rest (-1)
  | '+' :: rest => jsParseIntBody rest 1
  | rest => jsParseIntBody rest 1

/-- `a.toString()` for a `parseInt` result: `"NaN"` for `NaN`, canonical decimal
rendering otherwise. -/
def jsNumToString : JsNum → String
  | .nan => "NaN"
  | .num v => toString v

/-- `parseInteger(str)` (lines 1406-1410): return `parseInt(str)` when its
string rendering has the same length as the input, `undefined` otherwise. -/
def parseInteger (s : String) : Option JsNum :=
  if (jsNumToString (jsParseInt s)).length = s.length then some (jsParseInt s) else none

/-- How a block / block-header lookup route routes its `:idx` parameter. -/
inductive HeaderDispatch where
  | hash (idx : String)
  | height (v : Int)
deriving DecidableEq

/-- The dispatch of `/block/header/:idx` (lines 481-513) and `/block/:idx`
(lines 515-547): `var idx = parseInteger(...); if (!idx) hash else height`.
The guard is JavaScript truthiness, so `undefined`, `NaN` and `0` all take the
hash branch. -/
def blockHeaderDispatch (idx : String) : HeaderDispatch :=
  match parseInteger idx with
  | some (.num v) => if v = 0 then .hash idx else .height v
  | some .nan => .hash idx
  | none => .hash idx

theorem parseInteger_eq_some {s : String} {a : JsNum} :
    parseInteger s = some a ↔
      jsParseInt s = a ∧ (jsNumToString (jsParseInt s)).length = s.length := by
  unfold parseInteger
  by_cases hl : (jsNumToString (jsParseInt s)).length = s.length <;> simp [hl, eq_comm]

/-- C3 counterexample: for the input `"0"`, parsing as an integer and converting
back reproduces the input exactly, yet the route treats it as a hash, not a
height: `parseInteger` returns `0`, which is falsy in the `if (!idx)` guard. -/
theorem blockHeaderDispatch_zero_cex :
    jsNumToString (jsParseInt "0") = "0" ∧
    blockHeaderDispatch "0" = .hash "0" ∧
    blockHeaderDispatch "0" ≠ .height 0 := by
  refine ⟨by decide, by decide, by decide⟩

/-- C3 amended: an identifier is dispatched as a height exactly when
`parseInt` yields a nonzero (and non-`NaN`) integer whose decimal rendering has
the same length as the input; `"12345"` is a height, `"00012345"` a hash, and
`"0"` a hash. -/
theorem blockHeaderDispatch_characterization :
    (∀ (s : String) (v : Int),
      blockHeaderDispatch s = .height v ↔
        (jsParseInt s = .num v ∧ v ≠ 0 ∧
          (jsNumToString (.num v)).length = s.length)) ∧
    blockHeaderDispatch "12345" = .height 12345 ∧
    blockHeaderDispatch "00012345" = .hash "00012345" ∧
    blockHeaderDispatch "0" = .hash "0" := by
  refine ⟨?_, by decide, by decide, by decide⟩
  intro s v
  constructor
  · intro h
    cases hp : parseInteger s with
    | none => simp [blockHeaderDispatch, hp] at h
    | some a =>
      cases a with
      | nan => simp [blockHeaderDispatch, hp] at h
      | num w =>
        rcases parseInteger_eq_some.mp hp with ⟨hpv, hl⟩
        by_cases hw : w = 0
        · simp [blockHeaderDispatch, hp, hw] at h
        · simp [blockHeaderDispatch, hp, hw] at h
          subst h
          exact ⟨hpv, hw, by rw [← hpv]; exact hl⟩
  · rintro ⟨h1, h2, h3⟩
    have hp : parseInteger s = some (.num v) :=
      parseInteger_eq_some.mpr ⟨h1, by rw [h1]; exact h3⟩
    simp [blockHeaderDispatch, hp, h2]

/-- Witness for C3: the characterization applied at the concrete input `"7"`. -/
theorem blockHeaderDispatch_characterization_witness :
    blockHeaderDispatch "7" = .height 7 :=
  (blockHeaderDispatch_characterization.1 "7" 7).mpr ⟨by decide, by decide, by decide⟩

/-! ## TTL cache and the single-node cache orchestrator
(`Self.prototype._set` / `_get`, lines 656-667, and the shared shape of
`_getInfo`, `_feeInfo`, `_getHeight`, `_getTransactions`, `_getPeers`,
lines 673-797). Only live (unexpired) entries are modelled in the store; the
recorded TTL is the per-entry expiry argument handed to `node-cache`. -/

/-- A `node-cache` store restricted to one value type: live entries
`(key, value, ttl)`, most recent write first. -/
def KVStore (V : Type) : Type :=
  List (String × V × Nat)

def kvSet {V : Type} (st : KVStore V) (key : String) (v : V) (ttl : Nat) : KVStore V :=
  (key, v, ttl) :: st

def kvGet {V : Type} (st : KVStore V) (key : String) : Option V :=
  match st with
  | [] => none
  | (k, v, _) :: rest => if k = key then some v else kvGet rest key

/-- `util.format('%s%s%s', ...)` rendering of a possibly-undefined argument. -/
def jsS : Option String → String
  | none => "undefined"
  | some s => s

/-- The cache key of `_set`/`_get`: the bare concatenation
`util.format('%s%s%s', node, port, method)`. -/
def cacheKey (node port : Option String) (method : String) : String :=
  jsS node ++ jsS port ++ method

/-- `Self.prototype._set(node, port, method, data, ttl)` (lines 656-660):
`ttl = ttl || this.cacheTimeout` (so a missing or zero ttl falls back to the
default), then store under the concatenated key. -/
def selfSet {V : Type} (cacheTimeout : Nat) (st : KVStore V) (node port : Option String)
    (method : String) (data : V) (ttl : Option Nat) : KVStore V :=
  let t := match ttl with
    | some t => if t = 0 then cacheTimeout else t
    | none => cacheTimeout
  kvSet st (cacheKey node port method) data t

/-- `Self.prototype._get(node, port, method)` (lines 662-667): look the
concatenated key up; `if (!ret) return false` is modelled by `Option` (all
stored values are objects, hence truthy). -/
def selfGet {V : Type} (st : KVStore V) (node port : Option String) (method : String) : Option V :=
  kvGet st (cacheKey node port method)

/-- A node identity `{host, port}` as attached to responses. -/
structure NodeAddr where
  host : String
  port : String
deriving DecidableEq

/-- A response object as stored in the cache: the method-specific payload plus
the `cached` flag and `node` identity the orchestrator writes onto it. -/
structure CachedData (α : Type) where
  body : α
  cached : Bool
  node : NodeAddr
deriving DecidableEq

/-- The resolution of a single-node orchestrated call: a data object, or the
error-shaped payload `{error, node}`. -/
inductive OpResult (ε α : Type) where
  | ok (d : CachedData α)
  | err (e : ε) (node : NodeAddr)
deriving DecidableEq

/-- Host/port defaulting for the upstream client:
`host: node || this.defaultHost, port: port || this.defaultPort`. -/
structure ProxyConfig where
  defaultHost : String
  defaultPort : String
  cacheTimeout : Nat
deriving DecidableEq

def rpcAddr (cfg : ProxyConfig) (node port : Option String) : NodeAddr :=
  ⟨node.getD cfg.defaultHost, port.getD cfg.defaultPort⟩

/-- The shared body of `_getInfo` / `_feeInfo` / `_getHeight` /
`_getTransactions` / `_getPeers` (lines 673-797), which differ only in the
method string, the upstream producer, and any extra derived fields folded into
the payload `body`.  Cache hit: resolve the stored value with `cached := true`.
Cache miss: run the producer; on success mark `cached := false`, attach the
node identity, store under the key with the default TTL and resolve; on failure
resolve `{error, node}` and store nothing. -/
def cachedNodeOp {ε α : Type} (cfg : ProxyConfig) (method : String) (node port : Option String)
    (producer : Except ε α) (st : KVStore (CachedData α)) :
    OpResult ε α × KVStore (CachedData α) :=
  match selfGet st node port method with
  | some c => (.ok { c with cached := true }, st)
  | none =>
    match producer with
    | .ok body =>
      let d : CachedData α := ⟨body, false, rpcAddr cfg node port⟩
      (.ok d, selfSet cfg.cacheTimeout st node port method d none)
    | .error e => (.err e (rpcAddr cfg node port), st)

theorem selfGet_selfSet {V : Type} (ct : Nat) (st : KVStore V) (node port : Option String)
    (method : String) (d : V) (ttl : Option Nat) :
    selfGet (selfSet ct st node port method d ttl) node port method = some d := by
  unfold selfGet selfSet kvSet kvGet
  simp

/-- C5: the cache round-trip semantics of the single-node orchestrated
operations.  (1) On a hit the stored value is resolved with `cached := true`,
the store is untouched, and the producer plays no role.  (2) On a miss the
producer's fresh result is resolved with `cached := false` and the node
identity attached, and is stored under the scope key with the default TTL.
(3) Hence a miss read answers `cached = false` and the immediately following
read of the same key answers the same payload with `cached = true`. -/
theorem cachedNodeOp_cache_semantics :
    (∀ (ε α : Type) (cfg : ProxyConfig) (method : String) (node port : Option String)
        (st : KVStore (CachedData α)) (c : CachedData α) (p p' : Except ε α),
      selfGet st node port method = some c →
        cachedNodeOp cfg method node port p st = (.ok { c with cached := true }, st) ∧
        cachedNodeOp cfg method node port p st = cachedNodeOp cfg method node port p' st) ∧
    (∀ (ε α : Type) (cfg : ProxyConfig) (method : String) (node port : Option String)
        (st : KVStore (CachedData α)) (body : α),
      selfGet st node port method = none →
        cachedNodeOp cfg method node port (Except.ok body : Except ε α) st =
          (.ok ⟨body, false, rpcAddr cfg node port⟩,
           selfSet cfg.cacheTimeout st node port method ⟨body, false, rpcAddr cfg node port⟩
             none)) ∧
    (∀ (ε α : Type) (cfg : ProxyConfig) (method : String) (node port : Option String)
        (st : KVStore (CachedData α)) (body : α) (p' : Except ε α),
      selfGet st node port method = none →
        (cachedNodeOp cfg method node port (Except.ok body : Except ε α) st).1 =
          .ok ⟨body, false, rpcAddr cfg node port⟩ ∧
        cachedNodeOp cfg method node port p'
            (cachedNodeOp cfg method node port (Except.ok body : Except ε α) st).2 =
          (.ok ⟨body, true, rpcAddr cfg node port⟩,
           (cachedNodeOp cfg method node port (Except.ok body : Except ε α) st).2)) := by
  refine ⟨?_, ?_, ?_⟩
  · intro ε α cfg method node port st c p p' h
    constructor <;> simp [cachedNodeOp, h]
  · intro ε α cfg method node port st body h
    simp [cachedNodeOp, h]
  · intro ε α cfg method node port st body p' h
    have hmiss : cachedNodeOp cfg method node port (Except.ok body : Except ε α) st =
        (.ok ⟨body, false, rpcAddr cfg node port⟩,
         selfSet cfg.cacheTimeout st node port method ⟨body, false, rpcAddr cfg node port⟩
           none) := by
      simp [cachedNodeOp, h]
    refine ⟨by rw [hmiss], ?_⟩
    rw [hmiss]
    have hhit : selfGet
        (selfSet cfg.cacheTimeout st node port method
          (⟨body, false, rpcAddr cfg node port⟩ : CachedData α) none) node port method =
        some ⟨body, false, rpcAddr cfg node port⟩ :=
      selfGet_selfSet _ _ _ _ _ _ _
    simp [cachedNodeOp, hhit]

/-- Witness for C5 on a concrete configuration: a miss followed by a hit. -/
theorem cachedNodeOp_cache_semantics_witness :
    selfGet ([] : KVStore (CachedData Nat)) (some "host") (some "8080") "getinfo" = none ∧
    cachedNodeOp (ε := Unit) ⟨"public.turtlenode.io", "11898", 30⟩ "getinfo"
        (some "host") (some "8080") (Except.ok 42) [] =
      (.ok ⟨42, false, ⟨"host", "8080"⟩⟩,
       selfSet 30 [] (some "host") (some "8080") "getinfo" ⟨42, false, ⟨"host", "8080"⟩⟩ none) :=
  ⟨rfl, cachedNodeOp_cache_semantics.2.1 Unit Nat ⟨"public.turtlenode.io", "11898", 30⟩
    "getinfo" (some "host") (some "8080") [] 42 rfl⟩

/-- C6: on a cache miss with a failing producer, the call resolves the
error-shaped payload `{error, node}` carrying the attempted (defaulted)
host and port, the store is unchanged, and therefore the next call for the
same key is again a miss that re-invokes the producer. -/
theorem cachedNodeOp_error_semantics :
    ∀ (ε α : Type) (cfg : ProxyConfig) (method : String) (node port : Option String)
      (st : KVStore (CachedData α)) (e : ε),
      selfGet st node port method = none →
        cachedNodeOp cfg method node port (Except.error e : Except ε α) st =
          (.err e (rpcAddr cfg node port), st) ∧
        (∀ body : α,
          cachedNodeOp cfg method node port (Except.ok body : Except ε α)
              (cachedNodeOp cfg method node port (Except.error e : Except ε α) st).2 =
            (.ok ⟨body, false, rpcAddr cfg node port⟩,
             selfSet cfg.cacheTimeout st node port method ⟨body, false, rpcAddr cfg node port⟩
               none)) := by
  intro ε α cfg method node port st e h
  have herr : cachedNodeOp cfg method node port (Except.error e : Except ε α) st =
      (.err e (rpcAddr cfg node port), st) := by
    simp [cachedNodeOp, h]
  refine ⟨herr, ?_⟩
  intro body
  rw [herr]
  simp [cachedNodeOp, h]

/-- Witness for C6 on a concrete configuration: the defaulted node identity is
attached and the store stays empty. -/
theorem cachedNodeOp_error_semantics_witness :
    selfGet ([] : KVStore (CachedData Nat)) none none "getheight" = none ∧
    cachedNodeOp (α := Nat) ⟨"public.turtlenode.io", "11898", 30⟩ "getheight" none none
        (Except.error ()) [] =
      (.err () ⟨"public.turtlenode.io", "11898"⟩, []) :=
  ⟨rfl, (cachedNodeOp_error_semantics Unit Nat ⟨"public.turtlenode.io", "11898", 30⟩
    "getheight" none none [] () rfl).1⟩

/-- C10: the cache key is the bare concatenation of node, port and method, so
distinct `(node, port)` pairs can collide; a value stored by `_set` for
`('a', '12')` is returned by `_get` for `('a1', '2')`. -/
theorem cacheKey_collision :
    cacheKey (some "a") (some "12") "getinfo" = cacheKey (some "a1") (some "2") "getinfo" ∧
    (some "a", some "12") ≠ ((some "a1" : Option String), (some "2" : Option String)) ∧
    selfGet (selfSet 30 ([] : KVStore Nat) (some "a") (some "12") "getinfo" 42 none)
        (some "a1") (some "2") "getinfo" = some 42 := by
  refine ⟨by decide, by decide, by decide⟩

/-! ## The four aggregation rounds (lines 1170-1328)
Each round resolves one `_getHeight`/`_getInfo`/`_getPoolNetworkInfo` promise
per source (none of which ever rejects), collects the truthy `height` /
`difficulty` fields, and builds the summary object.  A round is modelled from
the settled per-source samples onward: `some v` is a response carrying the
numeric field with value `v`, `none` a response lacking it (error payloads
included). The `heights`/`diffs` collection loop `if (!results[j].x) continue`
also skips a literal `0` (falsy).  `Except.error ()` models the path where the
statistics computation throws (empty `reduce`), the exception is caught, and
the round resolves `{error: err}` instead of a data object. -/

/-- The collection loop of the aggregation rounds: keep only truthy numeric
samples. -/
def collectSamples (results : List (Option Int)) : List Int :=
  results.filterMap fun r =>
    match r with
    | some v => if v = 0 then none else some v
    | none => none

/-- The summary object of `_getGlobalHeight` / `_getGlobalDifficulty`
(lines 1191-1201 and 1231-1241). -/
structure AggData where
  max : Int
  min : Int
  avg : Int
  med : Rat
  cnt : Nat
  ans : Nat
  con : Rat
  win : Int
  cached : Bool
deriving DecidableEq

/-- The summary object of `_getGlobalPoolHeight` / `_getGlobalPoolDifficulty`
(lines 1272-1280 and 1312-1320): note there is no `ans` field. -/
structure PoolAggData where
  max : Int
  min : Int
  avg : Int
  med : Rat
  cnt : Nat
  con : Rat
  win : Int
  cached : Bool
deriving DecidableEq

/-- The reduction step of `_getGlobalHeight` (lines 1183-1203): `heights` is
`collectSamples results`; `cnt` is the number of settled promises and `ans`
the number of usable samples.  When every statistic is defined the data object
is built and resolved; when the sample list is empty `maxValue` throws and the
round resolves the error payload instead. -/
def globalHeightReduce (results : List (Option Int)) : Except Unit AggData :=
  match maxValue (collectSamples results), minValue (collectSamples results),
      avgValue (collectSamples results), medValue (collectSamples results) with
  | some mx, some mn, some av, some md =>
    .ok ⟨mx, mn, av, md, results.length, (collectSamples results).length,
      (voteValue (collectSamples results)).confidence,
      (voteValue (collectSamples results)).value, false⟩
  | _, _, _, _ => .error ()

/-- The reduction step of `_getGlobalDifficulty` (lines 1223-1243), identical
in shape to `globalHeightReduce` with `difficulty` samples. -/
def globalDifficultyReduce (results : List (Option Int)) : Except Unit AggData :=
  match maxValue (collectSamples results), minValue (collectSamples results),
      avgValue (collectSamples results), medValue (collectSamples results) with
  | some mx, some mn, some av, some md =>
    .ok ⟨mx, mn, av, md, results.length, (collectSamples results).length,
      (voteValue (collectSamples results)).confidence,
      (voteValue (collectSamples results)).value, false⟩
  | _, _, _, _ => .error ()

/-- The reduction step of `_getGlobalPoolHeight` (lines 1264-1283): `cnt` is
set to `heights.length` — the number of usable samples, not the number of
pools queried — and no `ans` field exists. -/
def globalPoolHeightReduce (results : List (Option Int)) : Except Unit PoolAggData :=
  match maxValue (collectSamples results), minValue (collectSamples results),
      avgValue (collectSamples results), medValue (collectSamples results) with
  | some mx, some mn, some av, some md =>
    .ok ⟨mx, mn, av, md, (collectSamples results).length,
      (voteValue (collectSamples results)).confidence,
      (voteValue (collectSamples results)).value, false⟩
  | _, _, _, _ => .error ()

/-- The reduction step of `_getGlobalPoolDifficulty` (lines 1304-1323),
identical in shape to `globalPoolHeightReduce`. -/
def globalPoolDifficultyReduce (results : List (Option Int)) : Except Unit PoolAggData :=
  match maxValue (collectSamples results), minValue (collectSamples results),
      avgValue (collectSamples results), medValue (collectSamples results) with
  | some mx, some mn, some av, some md =>
    .ok ⟨mx, mn, av, md, (collectSamples results).length,
      (voteValue (collectSamples results)).confidence,
      (voteValue (collectSamples results)).value, false⟩
  | _, _, _, _ => .error ()

/-- C4 counterexample: a round whose single source answered without a usable
height has an empty sample set, and the aggregation resolves the error payload
(`maxValue`'s empty `reduce` throws), not a data object with vote value `0`
and confidence `1`. -/
theorem emptyAggregation_error_cex :
    collectSamples [none] = [] ∧
    globalHeightReduce [none] = Except.error () := by
  refine ⟨rfl, rfl⟩

/-- C4 amended: `voteValue` itself maps an empty sample list to
`{value: 0, confidence: 1}`, but an aggregation round whose usable sample set
is empty resolves the error payload: the `max`/`min` reduction throws before
the data object is assembled, so no `{win: 0, con: 1}` result is produced. -/
theorem emptyAggregation_behavior :
    voteValue [] = ⟨0, 1⟩ ∧
    (∀ results : List (Option Int), collectSamples results = [] →
      globalHeightReduce results = Except.error () ∧
      globalDifficultyReduce results = Except.error ()) := by
  refine ⟨rfl, ?_⟩
  intro results hh
  constructor
  · unfold globalHeightReduce
    rw [hh]
    simp [maxValue]
  · unfold globalDifficultyReduce
    rw [hh]
    simp [maxValue]

/-- Witness for C4 at a concrete all-failed round. -/
theorem emptyAggregation_behavior_witness :
    collectSamples [none] = [] ∧ globalHeightReduce [none] = Except.error () ∧
    globalDifficultyReduce [none] = Except.error () :=
  ⟨rfl, (emptyAggregation_behavior.2 [none] rfl).1, (emptyAggregation_behavior.2 [none] rfl).2⟩

/-- C8 counterexample: a pool round with two responses, one usable, yields a
summary whose `cnt` is `1` — the usable-sample count, not the `2` responses
attempted — and the `PoolAggData` shape carries no `ans` field at all. -/
theorem poolAggregation_cnt_cex :
    globalPoolHeightReduce [none, some 5] =
      Except.ok ⟨5, 5, 5, 5, 1, 1, 5, false⟩ ∧
    ([none, some 5] : List (Option Int)).length = 2 ∧
    (1 : Nat) ≠ 2 := by
  refine ⟨?_, rfl, by decide⟩
  have hc : collectSamples [none, some 5] = [5] := rfl
  unfold globalPoolHeightReduce
  rw [hc]
  norm_num [maxValue, minValue, avgValue, medValue, jsRound, voteValue, buildTallies,
    tallyInsert, List.insertionSort, List.orderedInsert]

/-- C8 amended: the node-sourced rounds (`network height`, `network
difficulty`) expose `cnt` = responses attempted and `ans` = usable responses
with `ans ≤ cnt`; the pool-sourced rounds instead expose `cnt` = usable
responses and no `ans` field. -/
theorem aggregation_cnt_ans_fields :
    (∀ (results : List (Option Int)) (d : AggData),
      globalHeightReduce results = Except.ok d →
        d.cnt = results.length ∧ d.ans = (collectSamples results).length ∧ d.ans ≤ d.cnt) ∧
    (∀ (results : List (Option Int)) (d : AggData),
      globalDifficultyReduce results = Except.ok d →
        d.cnt = results.length ∧ d.ans = (collectSamples results).length ∧ d.ans ≤ d.cnt) ∧
    (∀ (results : List (Option Int)) (d : PoolAggData),
      globalPoolHeightReduce results = Except.ok d →
        d.cnt = (collectSamples results).length) ∧
    (∀ (results : List (Option Int)) (d : PoolAggData),
      globalPoolDifficultyReduce results = Except.ok d →
        d.cnt = (collectSamples results).length) := by
  refine ⟨?_, ?_, ?_, ?_⟩
  · intro results d h
    cases hh : collectSamples results with
    | nil =>
      unfold globalHeightReduce at h
      rw [hh] at h
      simp [maxValue] at h
    | cons x xs =>
      unfold globalHeightReduce at h
      rw [hh] at h
      simp only [maxValue, minValue, avgValue, medValue, Except.ok.injEq] at h
      subst h
      have hlen : (collectSamples results).length ≤ results.length := by
        unfold collectSamples
        exact List.length_filterMap_le _ _
      rw [hh] at hlen
      exact ⟨rfl, rfl, hlen⟩
  · intro results d h
    cases hh : collectSamples results with
    | nil =>
      unfold globalDifficultyReduce at h
      rw [hh] at h
      simp [maxValue] at h
    | cons x xs =>
      unfold globalDifficultyReduce at h
      rw [hh] at h
      simp only [maxValue, minValue, avgValue, medValue, Except.ok.injEq] at h
      subst h
      have hlen : (collectSamples results).length ≤ results.length := by
        unfold collectSamples
        exact List.length_filterMap_le _ _
      rw [hh] at hlen
      exact ⟨rfl, rfl, hlen⟩
  · intro results d h
    cases hh : collectSamples results with
    | nil =>
      unfold globalPoolHeightReduce at h
      rw [hh] at h
      simp [maxValue] at h
    | cons x xs =>
      unfold globalPoolHeightReduce at h
      rw [hh] at h
      simp only [maxValue, minValue, avgValue, medValue, Except.ok.injEq] at h
      subst h
      rfl
  · intro results d h
    cases hh : collectSamples results with
    | nil =>
      unfold globalPoolDifficultyReduce at h
      rw [hh] at h
      simp [maxValue] at h
    | cons x xs =>
      unfold globalPoolDifficultyReduce at h
      rw [hh] at h
      simp only [maxValue, minValue, avgValue, medValue, Except.ok.injEq] at h
      subst h
      rfl

/-- Witness for C8 at a concrete node round with one usable sample. -/
theorem aggregation_cnt_ans_fields_witness :
    globalHeightReduce [some 5] = Except.ok ⟨5, 5, 5, 5, 1, 1, 1, 5, false⟩ ∧
    ((⟨5, 5, 5, 5, 1, 1, 1, 5, false⟩ : AggData).cnt = ([some 5] : List (Option Int)).length ∧
     (⟨5, 5, 5, 5, 1, 1, 1, 5, false⟩ : AggData).ans = (collectSamples [some 5]).length ∧
     (⟨5, 5, 5, 5, 1, 1, 1, 5, false⟩ : AggData).ans ≤
       (⟨5, 5, 5, 5, 1, 1, 1, 5, false⟩ : AggData).cnt) := by
  have hred : globalHeightReduce [some 5] = Except.ok ⟨5, 5, 5, 5, 1, 1, 1, 5, false⟩ := by
    have hc : collectSamples [some 5] = [5] := rfl
    unfold globalHeightReduce
    rw [hc]
    norm_num [maxValue, minValue, avgValue, medValue, jsRound, voteValue, buildTallies,
      tallyInsert, List.insertionSort, List.orderedInsert]
  exact ⟨hred, aggregation_cnt_ans_fields.1 [some 5] _ hred⟩

/-! ## Claim C7: missing-parameter guards of the HTTP route handlers
Each guarded handler opens with `if (!request.params.x) return
response.status(...).send()` and only after passing the guard reaches the
operation that can contact an upstream source.  A handler is modelled as a
function of its (possibly missing) path parameters to either an immediate
status response or the named upstream-reaching operation. -/

/-- JavaScript falsiness of a string parameter: missing or empty. -/
def jsFalsyS : Option String → Bool
  | none => true
  | some s => s = ""

/-- What a route handler does before any network activity: answer an HTTP
status immediately, or proceed into the named upstream-reaching operation. -/
inductive RouteAction where
  | respond (status : Nat)
  | upstream (op : String)
deriving DecidableEq

def nodeInfoRoute (node : Option String) : RouteAction :=
  if jsFalsyS node then .respond 400 else .upstream "_getInfo"

def nodePortInfoRoute (node port : Option String) : RouteAction :=
  if jsFalsyS node || jsFalsyS port then .respond 400 else .upstream "_getInfo"

def nodeFeeRoute (node : Option String) : RouteAction :=
  if jsFalsyS node then .respond 400 else .upstream "_feeInfo"

def nodePortFeeRoute (node port : Option String) : RouteAction :=
  if jsFalsyS node || jsFalsyS port then .respond 400 else .upstream "_feeInfo"

def nodeHeightRoute (node : Option String) : RouteAction :=
  if jsFalsyS node then .respond 400 else .upstream "_getHeight"

def nodePortHeightRoute (node port : Option String) : RouteAction :=
  if jsFalsyS node || jsFalsyS port then .respond 400 else .upstream "_getHeight"

def nodePeersRoute (node : Option String) : RouteAction :=
  if jsFalsyS node then .respond 400 else .upstream "_getPeers"

def nodePortPeersRoute (node port : Option String) : RouteAction :=
  if jsFalsyS node || jsFalsyS port then .respond 400 else .upstream "_getPeers"

def nodeGetinfoRoute (node : Option String) : RouteAction :=
  if jsFalsyS node then .respond 400 else .upstream "_getInfo"

def nodePortGetinfoRoute (node port : Option String) : RouteAction :=
  if jsFalsyS node || jsFalsyS port then .respond 400 else .upstream "_getInfo"

def nodeFeeinfoRoute (node : Option String) : RouteAction :=
  if jsFalsyS node then .respond 400 else .upstream "_feeInfo"

def nodePortFeeinfoRoute (node port : Option String) : RouteAction :=
  if jsFalsyS node || jsFalsyS port then .respond 400 else .upstream "_feeInfo"

def nodeGetheightRoute (node : Option String) : RouteAction :=
  if jsFalsyS node then .respond 400 else .upstream "_getHeight"

def nodePortGetheightRoute (node port : Option String) : RouteAction :=
  if jsFalsyS node || jsFalsyS port then .respond 400 else .upstream "_getHeight"

def nodeGetpeersRoute (node : Option String) : RouteAction :=
  if jsFalsyS node then .respond 400 else .upstream "_getPeers"

def nodePortGetpeersRoute (node port : Option String) : RouteAction :=
  if jsFalsyS node || jsFalsyS port then .respond 400 else .upstream "_getPeers"

def nodeGettransactionsRoute (node : Option String) : RouteAction :=
  if jsFalsyS node then .respond 400 else .upstream "_getTransactions"

def nodePortGettransactionsRoute (node port : Option String) : RouteAction :=
  if jsFalsyS node || jsFalsyS port then .respond 400 else .upstream "_getTransactions"

/-- POST `/:node/:port/json_rpc` (lines 406-417). -/
def nodePortJsonRpcRoute (node port : Option String) : RouteAction :=
  if jsFalsyS node || jsFalsyS port then .respond 400 else .upstream "_processJsonRPC"

/-- `/blocks/:height` (lines 450-464). -/
def blocksHeightRoute (height : Option String) : RouteAction :=
  if jsFalsyS height then .respond 400 else .upstream "getBlocks"

/-- The guard of `/block/header/:idx` (lines 481-482). -/
def blockHeaderIdxRoute (idx : Option String) : RouteAction :=
  if jsFalsyS idx then .respond 400 else .upstream "getBlockHeaderByHashOrHeight"

/-- The guard of `/block/:idx` (lines 515-516). -/
def blockIdxRoute (idx : Option String) : RouteAction :=
  if jsFalsyS idx then .respond 400 else .upstream "getBlockOrBlockHash"

/-- `/transaction/:hash` (lines 564-578). -/
def transactionHashRoute (hash : Option String) : RouteAction :=
  if jsFalsyS hash then .respond 400 else .upstream "getTransaction"

/-- `/transactions/:paymentid` (lines 580-595): the guard answers status 500,
unlike every sibling route. -/
def transactionsByPaymentIdRoute (paymentid : Option String) : RouteAction :=
  if jsFalsyS paymentid then .respond 500 else .upstream "getTransactionHashesByPaymentId"

/-- C7: evaluation of every guarded handler at a missing required parameter.
All of them answer an immediate status without reaching an upstream
operation, and all answer 400 — except `/transactions/:paymentid`, which
answers 500, contradicting the spec's uniform-400 rule. -/
theorem missingParam_status_eval :
    nodeInfoRoute none = .respond 400 ∧
    nodePortInfoRoute (some "host") none = .respond 400 ∧
    nodePortInfoRoute none (some "11898") = .respond 400 ∧
    nodeFeeRoute none = .respond 400 ∧
    nodePortFeeRoute (some "host") none = .respond 400 ∧
    nodeHeightRoute none = .respond 400 ∧
    nodePortHeightRoute (some "host") none = .respond 400 ∧
    nodePeersRoute none = .respond 400 ∧
    nodePortPeersRoute (some "host") none = .respond 400 ∧
    nodeGetinfoRoute none = .respond 400 ∧
    nodePortGetinfoRoute (some "host") none = .respond 400 ∧
    nodeFeeinfoRoute none = .respond 400 ∧
    nodePortFeeinfoRoute (some "host") none = .respond 400 ∧
    nodeGetheightRoute none = .respond 400 ∧
    nodePortGetheightRoute (some "host") none = .respond 400 ∧
    nodeGetpeersRoute none = .respond 400 ∧
    nodePortGetpeersRoute (some "host") none = .respond 400 ∧
    nodeGettransactionsRoute none = .respond 400 ∧
    nodePortGettransactionsRoute (some "host") none = .respond 400 ∧
    nodePortJsonRpcRoute (some "host") none = .respond 400 ∧
    blocksHeightRoute none = .respond 400 ∧
    blockHeaderIdxRoute none = .respond 400 ∧
    blockIdxRoute none = .respond 400 ∧
    transactionHashRoute none = .respond 400 ∧
    transactionsByPaymentIdRoute none = .respond 500 ∧
    transactionsByPaymentIdRoute none ≠ .respond 400 := by
  decide

/-! ## Claim C2: getBlockCount (lines 1006-1031)
`getBlockCount` chains `this._getHeight()` — the cache-orchestrated height of
the **default** node, whose promise always resolves — then the mirror's
`getBlockCount()`, compares `Math.abs(networkHeight - block.count)` against
`this.maxDeviance`, and on a thrown deviance error or any mirror failure falls
through to a live `rpc.getBlockCount()` against the node given in `opts`.
The settled outcomes of the three collaborator calls are the environment. -/

/-- A `{count, status}` block-count response. -/
structure BlockCountResponse where
  count : Int
  status : String
deriving DecidableEq

/-- The settled collaborator outcomes a `getBlockCount` call runs against.
`defaultNodeNetworkHeight` is the `network_height` field of the
`this._getHeight()` resolution (`none` when that resolution was an error
payload without the field, in which case the JavaScript deviance comparison
on `NaN` is false).  `aggregatedNetworkHeight` is the Aggregator consensus
(`_getGlobalHeight().win`) that the spec claims is consulted — the code never
reads it. -/
structure BlockCountEnv where
  defaultNodeNetworkHeight : Option Int
  aggregatedNetworkHeight : Option Int
  mirrorBlockCount : Option BlockCountResponse
  liveBlockCount : Option Int
  maxDeviance : Int
deriving DecidableEq

/-- The `.catch` fallback of `getBlockCount`: live `rpc.getBlockCount()`
wrapped as `{count: data, status: 'OK'}`, rejecting with the generic failure
when the live call also fails. -/
def liveBlockCountFallback (env : BlockCountEnv) : Except Unit BlockCountResponse :=
  match env.liveBlockCount with
  | some d => .ok ⟨d, "OK"⟩
  | none => .error ()

/-- `Self.prototype.getBlockCount` (lines 1006-1031): mirror result accepted
unless `Math.abs(networkHeight - block.count) > this.maxDeviance` (with
`networkHeight` taken from the default node's `_getHeight()`), in which case —
or on mirror failure — the live fallback runs. -/
def getBlockCount (env : BlockCountEnv) : Except Unit BlockCountResponse :=
  match env.mirrorBlockCount with
  | some block =>
    match env.defaultNodeNetworkHeight with
    | some h =>
      if env.maxDeviance < |h - block.count| then liveBlockCountFallback env
      else .ok block
    | none => .ok block
  | none => liveBlockCountFallback env

/-- Modelled from the spec: the same operation as `getBlockCount`, but with
the staleness check reading the Aggregator's network-height consensus
(`aggregatedNetworkHeight`), which is what the spec says the code fetches.
Used only to compare the spec's wording against the code. -/
def getBlockCountPerSpec (env : BlockCountEnv) : Except Unit BlockCountResponse :=
  match env.mirrorBlockCount with
  | some block =>
    match env.aggregatedNetworkHeight with
    | some h =>
      if env.maxDeviance < |h - block.count| then liveBlockCountFallback env
      else .ok block
    | none => .ok block
  | none => liveBlockCountFallback env

/-- C2 counterexample: an environment where the default node reports
`network_height = 103` while the Aggregator consensus is `110`, the mirror
holds `count = 100`, and `maxDeviance = 5`.  The code accepts the mirror
(`|103 - 100| ≤ 5`); the spec's aggregator-based check would reject it and
serve the live count `200`.  So the height consulted is not the Aggregator
consensus. -/
theorem getBlockCount_heightSource_cex :
    getBlockCount ⟨some 103, some 110, some ⟨100, "OK"⟩, some 200, 5⟩ =
      Except.ok ⟨100, "OK"⟩ ∧
    getBlockCountPerSpec ⟨some 103, some 110, some ⟨100, "OK"⟩, some 200, 5⟩ =
      Except.ok ⟨200, "OK"⟩ ∧
    (⟨100, "OK"⟩ : BlockCountResponse) ≠ ⟨200, "OK"⟩ := by
  refine ⟨rfl, rfl, by decide⟩

/-- C2 amended: the staleness check compares the mirror count against the
`network_height` of a `_getHeight()` call to the default node; the mirror
response is returned unless the absolute difference exceeds `maxDeviance`, in
which case the live upstream call against the given node is used.  With mirror
count 100 and (default-node) network height 110 under `maxDeviance = 5` the
live path serves 200; with network height 103 the mirror's 100 is served. -/
theorem getBlockCount_deviance_check :
    (∀ (env : BlockCountEnv) (h : Int) (block : BlockCountResponse),
      env.defaultNodeNetworkHeight = some h →
      env.mirrorBlockCount = some block →
      getBlockCount env =
        if env.maxDeviance < |h - block.count| then liveBlockCountFallback env
        else Except.ok block) ∧
    getBlockCount ⟨some 110, some 110, some ⟨100, "OK"⟩, some 200, 5⟩ =
      Except.ok ⟨200, "OK"⟩ ∧
    getBlockCount ⟨some 103, some 103, some ⟨100, "OK"⟩, some 200, 5⟩ =
      Except.ok ⟨100, "OK"⟩ := by
  refine ⟨?_, rfl, rfl⟩
  intro env h block h1 h2
  unfold getBlockCount
  rw [h1, h2]

/-- Witness for C2: the deviance check applied at the rejecting environment. -/
theorem getBlockCount_deviance_check_witness :
    (⟨some 110, some 110, some ⟨100, "OK"⟩, some 200, 5⟩ :
        BlockCountEnv).defaultNodeNetworkHeight = some 110 ∧
    getBlockCount ⟨some 110, some 110, some ⟨100, "OK"⟩, some 200, 5⟩ =
      (if (5 : Int) < |110 - (100 : Int)| then
        liveBlockCountFallback ⟨some 110, some 110, some ⟨100, "OK"⟩, some 200, 5⟩
      else Except.ok ⟨100, "OK"⟩) :=
  ⟨rfl, getBlockCount_deviance_check.1 ⟨some 110, some 110, some ⟨100, "OK"⟩, some 200, 5⟩
    110 ⟨100, "OK"⟩ rfl rfl⟩

end TurtleProxy
